import Mathlib

/-!
Shallow embedding of the Portify backend (src/Backend/server.js): the
Express route handlers for registration, OTP verification, login and the
protected asset CRUD endpoints, over an explicit store state.

Modelling conventions:
- MongoDB ObjectIds are modelled as `Nat` drawn from a counter in the store.
- `Date.now()` values and Date fields are milliseconds as `Nat`.
- The `Math.random()` draw is an explicit parameter `r : ℚ` with the JS
  contract `0 ≤ r < 1`; `Math.floor` is `Int.floor` on `ℚ`.
- `bcrypt.hash` is modelled as a salted injective tagging of the password,
  `bcrypt.compare` as equality with that tag.
- `jwt.sign({ userId }, secret, { expiresIn: '24h' })` is modelled as a
  record carrying the claims; `jwt.verify` accepts exactly the records so
  minted whose expiry has not passed (signature forgery is not modelled).
- JS string truthiness (empty string is falsy) is modelled explicitly.
- The `unique: true` indexes on `email` and `username` in the user schema
  make `user.save()` fail with a duplicate-key error for a colliding
  insert; the handler's catch-all maps that to a 500 response.
-/

namespace Portify

/-- JS `String.prototype.toLowerCase` (ASCII model): lower-case each character. -/
def jsToLowerCase (s : String) : String :=
  String.mk (s.data.map Char.toLower)

/-- JS `String.prototype.trim`: strip whitespace from both ends. -/
def jsTrim (s : String) : String :=
  String.mk (((s.data.dropWhile Char.isWhitespace).reverse.dropWhile Char.isWhitespace).reverse)

/-- JS string truthiness: a string is truthy iff it is nonempty. -/
def truthy (s : String) : Bool := !(s == "")

/-- bcrypt.hash(password, salt) with work factor 10: an irreversible salted
hash, modelled as an injective tagging of the password. -/
def bcryptHash (password : String) : String := "$2a$10$" ++ password

/-- bcrypt.compare(password, hash): true iff the hash is the hash of the password. -/
def bcryptCompare (password hash : String) : Bool := hash == bcryptHash password

/-- The claims payload of a signed JWT as minted by server.js:
`jwt.sign({ userId: user._id }, secret, { expiresIn: '24h' })`. -/
structure Token where
  userId : Nat
  iat : Nat
  exp : Nat
  deriving DecidableEq

/-- jwt.sign({ userId }, JWT_SECRET, { expiresIn: '24h' }) at time `now` (ms). -/
def jwtSign (userId : Nat) (now : Nat) : Token :=
  { userId := userId, iat := now, exp := now + 24 * 60 * 60 * 1000 }

/-- Math.floor(100000 + Math.random() * 900000) — server.js line 115 —
for a concrete draw `r` of `Math.random()`. -/
def genOtpNum (r : ℚ) : ℤ := ⌊(100000 : ℚ) + r * 900000⌋

/-- The generated OTP `.toString()` stored on the user and echoed in the
registration response (server.js line 115). -/
def genOtpStr (r : ℚ) : String := toString (genOtpNum r)

/-- A document of the `users` collection (schema, server.js lines 49-58). -/
structure User where
  id : Nat
  username : String
  email : String
  password : String
  otp : Option String
  otpExpires : Option Nat
  isVerified : Bool
  deriving DecidableEq

/-- A document of the `assets` collection (schema, server.js lines 61-67). -/
structure Asset where
  id : Nat
  userId : Nat
  type : String
  name : String
  quantity : ℚ
  price : ℚ
  deriving DecidableEq

/-- The MongoDB store: the two collections plus fresh-id counters. -/
structure DB where
  users : List User
  assets : List Asset
  nextUserId : Nat
  nextAssetId : Nat
  deriving DecidableEq

/-- The `user` object included in register/login response bodies. -/
structure UserInfo where
  id : Nat
  username : String
  email : String
  deriving DecidableEq

/-- A JSON response: HTTP status plus the body fields any of the handlers
ever set (absent fields are `none`). -/
structure Response where
  status : Nat
  message : String
  otp : Option String := none
  otpExpires : Option Nat := none
  token : Option Token := none
  user : Option UserInfo := none
  asset : Option Asset := none
  deriving DecidableEq

/-- Body of POST /auth/register. -/
structure RegisterReq where
  username : String
  email : String
  password : String

/-- Body of POST /assets: the fields the handler reads, plus a `userId`
field a client may supply (the handler never reads it). -/
structure AssetBody where
  userId : Option Nat
  type : String
  name : String
  quantity : ℚ
  price : ℚ

/-- POST /auth/register (server.js lines 95-156). `r` is the
`Math.random()` draw, `now` is `Date.now()` in ms. The duplicate pre-check
(`User.findOne({ $or: [{ email }, { username }] })`) uses the raw request
values; normalization (`email.trim().toLowerCase()`) happens only
afterwards, at line 119. `user.save()` fails with a duplicate-key error —
mapped by the catch-all to a 500 — when a stored user collides with the
normalized email or trimmed username under the schema's unique indexes. -/
def registerHandler (db : DB) (req : RegisterReq) (r : ℚ) (now : Nat) : Response × DB :=
  match db.users.find? (fun u => u.email == req.email || u.username == req.username) with
  | some _ => ({ status := 400, message := "User with this email or username already exists" }, db)
  | none =>
    let hashedPassword := bcryptHash req.password
    let otp := genOtpStr r
    let otpExpires := now + 10 * 60 * 1000
    let normalizedEmail := jsToLowerCase (jsTrim req.email)
    let user : User :=
      { id := db.nextUserId, username := jsTrim req.username, email := normalizedEmail,
        password := hashedPassword, otp := some otp, otpExpires := some otpExpires,
        isVerified := false }
    if db.users.any (fun u => u.email == user.email || u.username == user.username) then
      ({ status := 500, message := "E11000 duplicate key error" }, db)
    else
      ({ status := 201, message := "User registered successfully. OTP sent (development).",
         otp := some otp, otpExpires := some otpExpires,
         user := some { id := user.id, username := user.username, email := user.email } },
       { db with users := db.users ++ [user], nextUserId := db.nextUserId + 1 })

/-- POST /auth/verify-otp (server.js lines 159-188). Checks run in source
order: required fields, user lookup, already-verified, OTP fields present
(JS truthiness: an empty stored OTP string also counts as absent),
OTP equality, expiry; on success the user is marked verified, the OTP slot
is cleared, and a 24h JWT is issued. -/
def verifyOtpHandler (db : DB) (email otp : String) (now : Nat) : Response × DB :=
  let email' := if truthy email then jsToLowerCase (jsTrim email) else email
  if !truthy email' || !truthy otp then
    ({ status := 400, message := "Email and OTP are required" }, db)
  else
    match db.users.find? (fun u => u.email == email') with
    | none => ({ status := 404, message := "User not found" }, db)
    | some user =>
      if user.isVerified then ({ status := 400, message := "User already verified" }, db)
      else
        match user.otp, user.otpExpires with
        | some storedOtp, some storedExpiry =>
          if !truthy storedOtp then ({ status := 400, message := "No OTP set for user" }, db)
          else if !(storedOtp == otp) then ({ status := 400, message := "Invalid OTP" }, db)
          else if storedExpiry < now then ({ status := 400, message := "OTP expired" }, db)
          else
            let verifiedUser : User := { user with isVerified := true, otp := none, otpExpires := none }
            ({ status := 200, message := "User verified successfully",
               token := some (jwtSign user.id now) },
             { db with users := db.users.map (fun v => if v.id == user.id then verifiedUser else v) })
        | _, _ => ({ status := 400, message := "No OTP set for user" }, db)

/-- POST /auth/login (server.js lines 191-232). Note the source order: the
not-verified check (403) runs before the password comparison, so an
unverified account answers 403 whatever the password. -/
def loginHandler (db : DB) (email password : String) (now : Nat) : Response :=
  let email' := if truthy email then jsToLowerCase (jsTrim email) else email
  match db.users.find? (fun u => u.email == email') with
  | none => { status := 400, message := "Invalid email or password" }
  | some user =>
    if !user.isVerified then
      { status := 403, message := "Email not verified. Please verify OTP before logging in." }
    else if !(bcryptCompare password user.password) then
      { status := 400, message := "Invalid email or password" }
    else
      { status := 200, message := "Logged in successfully",
        token := some (jwtSign user.id now),
        user := some { id := user.id, username := user.username, email := user.email } }

/-- User.findById on the users collection. -/
def findById (db : DB) (userId : Nat) : Option User :=
  db.users.find? (fun u => u.id == userId)

/-- authenticateToken middleware (server.js lines 75-90): 401 without a
token, 403 when jwt.verify rejects (modelled: expiry has passed), else
`req.user := await User.findById(decoded.userId)` — a missing user still
reaches the route handler (`req.user` is then null). -/
def authenticateToken (db : DB) (authToken : Option Token) (now : Nat) :
    Except Response (Option User) :=
  match authToken with
  | none => Except.error { status := 401, message := "Authentication token required" }
  | some tok =>
    if tok.exp < now then Except.error { status := 403, message := "Invalid token" }
    else Except.ok (findById db tok.userId)

/-- POST /assets (server.js lines 247-268): builds the new asset with
`userId: req.user._id`; the request body's own `userId` is never read.
A null `req.user` makes `req.user._id` throw (modelled as the 500). -/
def postAssetHandler (db : DB) (authToken : Option Token) (now : Nat) (body : AssetBody) :
    Response × DB :=
  match authenticateToken db authToken now with
  | Except.error resp => (resp, db)
  | Except.ok none => ({ status := 500, message := "Cannot read properties of null" }, db)
  | Except.ok (some reqUser) =>
    let asset : Asset :=
      { id := db.nextAssetId, userId := reqUser.id, type := body.type,
        name := body.name, quantity := body.quantity, price := body.price }
    ({ status := 201, message := "", asset := some asset },
     { db with assets := db.assets ++ [asset], nextAssetId := db.nextAssetId + 1 })

/-- DELETE /assets/:id (server.js lines 292-302):
`Asset.findByIdAndDelete(req.params.id)` — looked up and removed by `_id`
alone; `req.user` is never consulted. -/
def deleteAssetHandler (db : DB) (authToken : Option Token) (now : Nat) (assetId : Nat) :
    Response × DB :=
  match authenticateToken db authToken now with
  | Except.error resp => (resp, db)
  | Except.ok _ =>
    match db.assets.find? (fun a => a.id == assetId) with
    | none => ({ status := 404, message := "Asset not found" }, db)
    | some _ =>
      ({ status := 200, message := "Asset deleted successfully" },
       { db with assets := db.assets.eraseP (fun a => a.id == assetId) })

/-- The user document `user.save()` stores on a successful registration
(server.js lines 122-131), spelled out for use in theorem statements. -/
def savedUser (db : DB) (req : RegisterReq) (r : ℚ) (now : Nat) : User :=
  { id := db.nextUserId, username := jsTrim req.username,
    email := jsToLowerCase (jsTrim req.email), password := bcryptHash req.password,
    otp := some (genOtpStr r), otpExpires := some (now + 10 * 60 * 1000),
    isVerified := false }

/-! Concrete test fixtures used by witnesses and counterexamples. -/

/-- An empty store. -/
def dbEmpty : DB := { users := [], assets := [], nextUserId := 1, nextAssetId := 1 }

/-- Registration request for alice. -/
def reqA : RegisterReq := { username := "alice", email := "a@x.com", password := "pw1" }

/-- Registration request whose email differs from `reqA`'s only in case. -/
def reqB : RegisterReq := { username := "bob", email := "A@x.com", password := "pw2" }

/-- An unverified user with an outstanding OTP `111111` expiring at t = 600000 ms. -/
def uVer : User :=
  { id := 1, username := "alice", email := "a@x.com", password := bcryptHash "pw1",
    otp := some "111111", otpExpires := some 600000, isVerified := false }

/-- Store holding only `uVer`. -/
def dbVer : DB := { users := [uVer], assets := [], nextUserId := 2, nextAssetId := 1 }

/-- An unverified user with no outstanding OTP challenge. -/
def uNoOtp : User :=
  { id := 1, username := "bert", email := "b@x.com", password := bcryptHash "pw2",
    otp := none, otpExpires := none, isVerified := false }

/-- Store holding only `uNoOtp`. -/
def dbNoOtp : DB := { users := [uNoOtp], assets := [], nextUserId := 2, nextAssetId := 1 }

/-- A verified user with password `p`. -/
def uLoginV : User :=
  { id := 1, username := "vera", email := "v@x.com", password := bcryptHash "p",
    otp := none, otpExpires := none, isVerified := true }

/-- Store holding only `uLoginV`. -/
def dbLogin : DB := { users := [uLoginV], assets := [], nextUserId := 2, nextAssetId := 1 }

/-- A second verified user, owner of the asset in `dbTwo`. -/
def uOwner : User :=
  { id := 2, username := "owen", email := "o@x.com", password := bcryptHash "q",
    otp := none, otpExpires := none, isVerified := true }

/-- Store with two verified accounts and one asset, id 10, owned by account 2. -/
def dbTwo : DB :=
  { users := [uLoginV, uOwner],
    assets := [{ id := 10, userId := 2, type := "stock", name := "AAPL",
                 quantity := 1, price := 2 }],
    nextUserId := 3, nextAssetId := 11 }

/-! Helper lemmas. -/

theorem toDigitsCore_length_ge (b : Nat) :
    ∀ (fuel n : Nat) (ds : List Char), ds.length ≤ (Nat.toDigitsCore b fuel n ds).length := by
  intro fuel
  induction fuel with
  | zero => intro n ds; simp [Nat.toDigitsCore]
  | succ f ih =>
    intro n ds
    rw [Nat.toDigitsCore]
    by_cases h : n / b = 0
    · simp [h]
    · simp only [h, if_false]
      exact le_trans (by simp) (ih (n / b) (Nat.digitChar (n % b) :: ds))

theorem natRepr_ne_empty (n : Nat) : Nat.repr n ≠ "" := by
  show (Nat.toDigits 10 n).asString ≠ ""
  have h : 1 ≤ (Nat.toDigits 10 n).length := by
    show 1 ≤ (Nat.toDigitsCore 10 (n+1) n []).length
    rw [Nat.toDigitsCore]
    by_cases h : n / 10 = 0
    · simp [h]
    · simp only [h, if_false]
      exact le_trans (by simp) (toDigitsCore_length_ge 10 n (n / 10) _)
  intro hc
  have hnil : (Nat.toDigits 10 n) = [] := by
    have := congrArg String.data hc
    simpa [List.asString] using this
  rw [hnil] at h
  simp at h

theorem intRepr_ne_empty (i : Int) : Int.repr i ≠ "" := by
  cases i with
  | ofNat m => exact natRepr_ne_empty m
  | negSucc m =>
    show ("-" ++ Nat.repr (m+1)) ≠ ""
    intro hc
    have := congrArg String.data hc
    simp [String.data_append] at this

theorem genOtpStr_ne_empty (r : ℚ) : genOtpStr r ≠ "" := intRepr_ne_empty (genOtpNum r)

theorem truthy_genOtpStr (r : ℚ) : truthy (genOtpStr r) = true := by
  have h := genOtpStr_ne_empty r
  simp [truthy]
  exact h

theorem find?_map_if (l : List User) (p : User → Bool) (u upd : User)
    (hfind : l.find? p = some u) (hp : p upd = true) :
    (l.map (fun v => if v.id = u.id then upd else v)).find? p = some upd := by
  induction l with
  | nil => simp at hfind
  | cons v t ih =>
    by_cases hv : p v = true
    · rw [List.find?_cons_of_pos t hv] at hfind
      injection hfind with hvu
      subst hvu
      simp only [List.map_cons, if_pos rfl]
      exact List.find?_cons_of_pos _ hp
    · rw [List.find?_cons_of_neg t hv] at hfind
      simp only [List.map_cons]
      by_cases hid : v.id = u.id
      · rw [if_pos hid]
        exact List.find?_cons_of_pos _ hp
      · rw [if_neg hid]
        rw [List.find?_cons_of_neg _ hv]
        exact ih hfind

/-- Inversion of a 201 registration: both duplicate checks were clear and
the response and the new store state are fully determined. -/
theorem register_success_inv (db : DB) (req : RegisterReq) (r : ℚ) (now : Nat)
    (h : (registerHandler db req r now).fst.status = 201) :
    db.users.any (fun u => u.email == jsToLowerCase (jsTrim req.email) ||
      u.username == jsTrim req.username) = false ∧
    registerHandler db req r now =
      ({ status := 201, message := "User registered successfully. OTP sent (development).",
         otp := some (genOtpStr r), otpExpires := some (now + 10 * 60 * 1000),
         user := some { id := db.nextUserId, username := jsTrim req.username,
                        email := jsToLowerCase (jsTrim req.email) } },
       { db with users := db.users ++ [savedUser db req r now],
                 nextUserId := db.nextUserId + 1 }) := by
  cases hfind : db.users.find? (fun u => u.email == req.email || u.username == req.username) with
  | some u =>
    exfalso
    simp [registerHandler, hfind] at h
  | none =>
    by_cases hany : (db.users.any (fun u => u.email == jsToLowerCase (jsTrim req.email) ||
        u.username == jsTrim req.username)) = true
    · exfalso
      simp [registerHandler, hfind, hany] at h
    · rw [Bool.not_eq_true] at hany
      refine ⟨hany, ?_⟩
      simp [registerHandler, hfind, hany, savedUser]

/-- Inversion of a 200 OTP verification: the request fields were truthy,
the user was found unverified with exactly the presented code stored, and
the result marks the user verified with the OTP slot cleared. -/
theorem verify_success_inv (db : DB) (email otp : String) (now : Nat)
    (h : (verifyOtpHandler db email otp now).fst.status = 200) :
    ∃ u : User,
      (!truthy (if truthy email then jsToLowerCase (jsTrim email) else email) || !truthy otp) = false ∧
      db.users.find? (fun v => v.email ==
        (if truthy email then jsToLowerCase (jsTrim email) else email)) = some u ∧
      u.isVerified = false ∧ u.otp = some otp ∧
      (verifyOtpHandler db email otp now).fst =
        { status := 200, message := "User verified successfully",
          token := some (jwtSign u.id now) } ∧
      (verifyOtpHandler db email otp now).snd =
        { db with users := db.users.map (fun v => if v.id == u.id then
            { u with isVerified := true, otp := none, otpExpires := none } else v) } := by
  by_cases hcond : (!truthy (if truthy email then jsToLowerCase (jsTrim email) else email) ||
      !truthy otp) = true
  · exfalso
    simp only [verifyOtpHandler] at h
    rw [if_pos hcond] at h
    simp at h
  · rw [Bool.not_eq_true] at hcond
    cases hfind : db.users.find? (fun v => v.email ==
        (if truthy email then jsToLowerCase (jsTrim email) else email)) with
    | none =>
      exfalso
      simp [verifyOtpHandler, hcond, hfind] at h
    | some u =>
      by_cases hver : u.isVerified = true
      · exfalso
        simp [verifyOtpHandler, hcond, hfind, hver] at h
      · rw [Bool.not_eq_true] at hver
        cases hotp : u.otp with
        | none =>
          exfalso
          simp [verifyOtpHandler, hcond, hfind, hver, hotp] at h
        | some storedOtp =>
          cases hexp : u.otpExpires with
          | none =>
            exfalso
            simp [verifyOtpHandler, hcond, hfind, hver, hotp, hexp] at h
          | some storedExpiry =>
            by_cases hst : truthy storedOtp = true
            · by_cases heq : (storedOtp == otp) = true
              · by_cases hlt : storedExpiry < now
                · exfalso
                  simp [verifyOtpHandler, hcond, hfind, hver, hotp, hexp, hst, heq, hlt] at h
                · refine ⟨u, hcond, rfl, hver, by rw [hotp, eq_of_beq heq], ?_, ?_⟩
                  · simp [verifyOtpHandler, hcond, hfind, hver, hotp, hexp, hst, heq, hlt]
                  · simp [verifyOtpHandler, hcond, hfind, hver, hotp, hexp, hst, heq, hlt]
              · exfalso
                simp [verifyOtpHandler, hcond, hfind, hver, hotp, hexp, hst, heq] at h
            · exfalso
              simp [verifyOtpHandler, hcond, hfind, hver, hotp, hexp, hst] at h


/-! Claim theorems. -/

/-- C1: the claim says a DELETE /assets/:id request with a valid token for
an account that does not own the asset returns NotFound/Forbidden and
leaves the row in place. The code has no ownership check: here account 1
deletes asset 10 owned by account 2 and gets 200 with the row removed, so
the claim describes intended behavior the code does not implement. -/
theorem c1_delete_ignores_ownership :
    (jwtSign 1 0).userId = 1 ∧
    ((dbTwo.assets.find? (fun a => a.id == 10)).map Asset.userId = some 2) ∧
    (1 : Nat) ≠ 2 ∧
    (deleteAssetHandler dbTwo (some (jwtSign 1 0)) 0 10).fst.status = 200 ∧
    (deleteAssetHandler dbTwo (some (jwtSign 1 0)) 0 10).fst.message = "Asset deleted successfully" ∧
    (deleteAssetHandler dbTwo (some (jwtSign 1 0)) 0 10).snd.assets = [] := by
  decide

/-- C2 counterexample: registering `a@x.com` and then `A@x.com` (equal
after trim-and-lowercase) gives one 201 and one failure, but the failure
is the 500 duplicate-key error, not the 400 Conflict response — the
duplicate pre-check compares the raw email, which a case variant slips
past, and only the store's unique index stops the insert. -/
theorem c2_counterexample :
    jsToLowerCase (jsTrim reqB.email) = jsToLowerCase (jsTrim reqA.email) ∧
    reqB.email ≠ reqA.email ∧
    (registerHandler dbEmpty reqA 0 0).fst.status = 201 ∧
    (registerHandler (registerHandler dbEmpty reqA 0 0).snd reqB 0 0).fst.status = 500 ∧
    (registerHandler (registerHandler dbEmpty reqA 0 0).snd reqB 0 0).fst.message ≠
      "User with this email or username already exists" := by
  decide

/-- C2 amended: for two registrations whose emails agree after
trim-and-lowercase, if the first succeeds the second always fails (status
is never 201) and stores no second account — but the failure is the 400
Conflict only when the pre-check on the raw email catches it; otherwise it
is the unique index's duplicate-key error surfaced as a 500. -/
theorem c2_one_success_per_normalized_email (db : DB) (req1 req2 : RegisterReq)
    (r1 r2 : ℚ) (t1 t2 : Nat)
    (hemail : jsToLowerCase (jsTrim req2.email) = jsToLowerCase (jsTrim req1.email))
    (h1 : (registerHandler db req1 r1 t1).fst.status = 201) :
    (registerHandler (registerHandler db req1 r1 t1).snd req2 r2 t2).fst.status ≠ 201 ∧
    (registerHandler (registerHandler db req1 r1 t1).snd req2 r2 t2).snd =
      (registerHandler db req1 r1 t1).snd := by
  obtain ⟨hany1, heq1⟩ := register_success_inv db req1 r1 t1 h1
  rw [heq1]
  cases hfind2 : (db.users ++ [savedUser db req1 r1 t1]).find?
      (fun u => u.email == req2.email || u.username == req2.username) with
  | some u =>
    refine ⟨?_, ?_⟩ <;> simp [registerHandler, hfind2]
  | none =>
    have hany2 : ((db.users ++ [savedUser db req1 r1 t1]).any
        (fun u => u.email == jsToLowerCase (jsTrim req2.email) ||
          u.username == jsTrim req2.username)) = true := by
      rw [List.any_append]
      have hsaved : ((savedUser db req1 r1 t1).email ==
          jsToLowerCase (jsTrim req2.email)) = true := by
        rw [hemail]
        exact beq_self_eq_true _
      simp [hsaved]
    refine ⟨?_, ?_⟩ <;> simp [registerHandler, hfind2, hany2]

/-- C2 witness: the amended theorem applied to the concrete case pair. -/
theorem c2_witness :
    jsToLowerCase (jsTrim reqB.email) = jsToLowerCase (jsTrim reqA.email) ∧
    (registerHandler dbEmpty reqA 0 0).fst.status = 201 ∧
    (registerHandler (registerHandler dbEmpty reqA 0 0).snd reqB 0 0).fst.status ≠ 201 ∧
    (registerHandler (registerHandler dbEmpty reqA 0 0).snd reqB 0 0).snd =
      (registerHandler dbEmpty reqA 0 0).snd :=
  ⟨by decide, by decide,
   (c2_one_success_per_normalized_email dbEmpty reqA reqB 0 0 0 0 (by decide) (by decide)).1,
   (c2_one_success_per_normalized_email dbEmpty reqA reqB 0 0 0 0 (by decide) (by decide)).2⟩

/-- C3: after a successful registration, verifying with the generated code
before its expiry answers 200 and a token whose userId claim is exactly
the id of the account the registration created. -/
theorem c3_register_verify_token (db : DB) (req : RegisterReq) (r : ℚ) (now now' : Nat)
    (h201 : (registerHandler db req r now).fst.status = 201)
    (hemail : truthy (jsToLowerCase (jsTrim req.email)) = true)
    (hexp : ¬ now + 10 * 60 * 1000 < now') :
    (verifyOtpHandler (registerHandler db req r now).snd req.email (genOtpStr r) now').fst.status = 200 ∧
    ((verifyOtpHandler (registerHandler db req r now).snd req.email (genOtpStr r) now').fst.token).map
        Token.userId =
      ((registerHandler db req r now).fst.user).map UserInfo.id := by
  obtain ⟨hany, heq⟩ := register_success_inv db req r now h201
  rw [heq]
  have hreqe : truthy req.email = true := by
    cases hc : truthy req.email
    · have hce : req.email = "" := by
        simpa [truthy] using hc
      rw [hce] at hemail
      exact absurd hemail (by decide)
    · rfl
  have hpre : db.users.find? (fun v => v.email == jsToLowerCase (jsTrim req.email)) = none := by
    rw [List.find?_eq_none]
    intro x hx hcx
    exact (List.any_eq_false.mp hany) x hx (by simp [hcx])
  have hfind : (db.users ++ [savedUser db req r now]).find?
      (fun v => v.email == jsToLowerCase (jsTrim req.email)) = some (savedUser db req r now) := by
    rw [List.find?_append, hpre]
    simp [savedUser]
  have hsver : (savedUser db req r now).isVerified = false := rfl
  have hsotp : (savedUser db req r now).otp = some (genOtpStr r) := rfl
  have hsexp : (savedUser db req r now).otpExpires = some (now + 10 * 60 * 1000) := rfl
  have hsid : (savedUser db req r now).id = db.nextUserId := rfl
  refine ⟨?_, ?_⟩ <;>
    simp [verifyOtpHandler, hreqe, hemail, hfind, hsver, hsotp, hsexp, hsid,
      truthy_genOtpStr, hexp, jwtSign]

/-- C3 witness: the register→verify flow at a concrete store and draw. -/
theorem c3_witness :
    (registerHandler dbEmpty reqA 0 0).fst.status = 201 ∧
    truthy (jsToLowerCase (jsTrim reqA.email)) = true ∧
    ¬ (0 + 10 * 60 * 1000 < 5) ∧
    ((verifyOtpHandler (registerHandler dbEmpty reqA 0 0).snd reqA.email (genOtpStr 0) 5).fst.status = 200 ∧
     ((verifyOtpHandler (registerHandler dbEmpty reqA 0 0).snd reqA.email (genOtpStr 0) 5).fst.token).map
         Token.userId =
       ((registerHandler dbEmpty reqA 0 0).fst.user).map UserInfo.id) :=
  ⟨by decide, by decide, by decide,
   c3_register_verify_token dbEmpty reqA 0 0 5 (by decide) (by decide) (by decide)⟩

/-- C4 counterexample: the three internal OTP failure causes on existing
unverified accounts produce three different user-facing messages
("Invalid OTP", "OTP expired", "No OTP set for user"), so the responses do
distinguish the causes, contrary to the claim. -/
theorem c4_counterexample :
    uVer.isVerified = false ∧ uNoOtp.isVerified = false ∧
    (verifyOtpHandler dbVer "a@x.com" "222222" 10).fst.status = 400 ∧
    (verifyOtpHandler dbVer "a@x.com" "222222" 10).fst.message = "Invalid OTP" ∧
    (verifyOtpHandler dbVer "a@x.com" "111111" 700000).fst.status = 400 ∧
    (verifyOtpHandler dbVer "a@x.com" "111111" 700000).fst.message = "OTP expired" ∧
    (verifyOtpHandler dbNoOtp "b@x.com" "111111" 10).fst.status = 400 ∧
    (verifyOtpHandler dbNoOtp "b@x.com" "111111" 10).fst.message = "No OTP set for user" ∧
    ("Invalid OTP" : String) ≠ "OTP expired" ∧
    ("Invalid OTP" : String) ≠ "No OTP set for user" ∧
    ("OTP expired" : String) ≠ "No OTP set for user" := by
  decide

/-- C4 amended: on an existing unverified account the three internal
failure causes — no outstanding code, mismatching code, and expired code —
all answer HTTP 400, but with three pairwise distinct messages, so the
cause is visible in the response body. -/
theorem c4_otp_failure_responses (db : DB) (email otp : String) (now : Nat) (u : User)
    (hce : truthy (if truthy email then jsToLowerCase (jsTrim email) else email) = true)
    (hco : truthy otp = true)
    (hfind : db.users.find? (fun v => v.email ==
      (if truthy email then jsToLowerCase (jsTrim email) else email)) = some u)
    (hver : u.isVerified = false) :
    ((u.otp = none ∨ u.otp = some "" ∨ u.otpExpires = none) →
      (verifyOtpHandler db email otp now).fst =
        { status := 400, message := "No OTP set for user" }) ∧
    (∀ c te, u.otp = some c → truthy c = true → u.otpExpires = some te → (c == otp) = false →
      (verifyOtpHandler db email otp now).fst =
        { status := 400, message := "Invalid OTP" }) ∧
    (∀ c te, u.otp = some c → truthy c = true → u.otpExpires = some te → c = otp → te < now →
      (verifyOtpHandler db email otp now).fst =
        { status := 400, message := "OTP expired" }) ∧
    ("No OTP set for user" : String) ≠ "Invalid OTP" ∧
    ("No OTP set for user" : String) ≠ "OTP expired" ∧
    ("Invalid OTP" : String) ≠ "OTP expired" := by
  refine ⟨?_, ?_, ?_, by decide, by decide, by decide⟩
  · rintro (hno | hno | hno)
    · cases hexp2 : u.otpExpires <;>
        simp [verifyOtpHandler, hce, hco, hfind, hver, hno, hexp2]
    · cases hexp2 : u.otpExpires <;>
        simp [verifyOtpHandler, hce, hco, hfind, hver, hno, hexp2,
          show truthy "" = false by decide]
    · cases hotp2 : u.otp <;>
        simp [verifyOtpHandler, hce, hco, hfind, hver, hno, hotp2]
  · intro c te hotp2 hct hexp2 hne
    simp [verifyOtpHandler, hce, hco, hfind, hver, hotp2, hexp2, hct, hne]
  · intro c te hotp2 hct hexp2 hceq hlt
    subst hceq
    simp [verifyOtpHandler, hce, hco, hfind, hver, hotp2, hexp2, hct, hlt]

/-- C4 witness: the mismatch branch of the amended theorem at a concrete
store. -/
theorem c4_witness :
    truthy (if truthy "a@x.com" then jsToLowerCase (jsTrim "a@x.com") else "a@x.com") = true ∧
    truthy "222222" = true ∧
    (dbVer.users.find? (fun v => v.email ==
      (if truthy "a@x.com" then jsToLowerCase (jsTrim "a@x.com") else "a@x.com")) = some uVer) ∧
    uVer.isVerified = false ∧
    (verifyOtpHandler dbVer "a@x.com" "222222" 10).fst =
      { status := 400, message := "Invalid OTP" } :=
  ⟨by decide, by decide, by decide, by decide,
   (c4_otp_failure_responses dbVer "a@x.com" "222222" 10 uVer (by decide) (by decide)
     (by decide) (by decide)).2.1 "111111" 600000 (by decide) (by decide) (by decide) (by decide)⟩

/-- C6 counterexample: an unverified account's wrong-password login answers
403 "Email not verified…" while a non-existent email answers 400 "Invalid
email or password" — different status and message, so the claim fails for
unverified accounts (and the 403 reveals the account exists). -/
theorem c6_counterexample :
    uVer.isVerified = false ∧
    bcryptCompare "wrongpw" uVer.password = false ∧
    (loginHandler dbVer "nobody@x.com" "pw1" 0).status = 400 ∧
    (loginHandler dbVer "a@x.com" "wrongpw" 0).status = 403 ∧
    (loginHandler dbVer "nobody@x.com" "pw1" 0).message ≠
      (loginHandler dbVer "a@x.com" "wrongpw" 0).message := by
  decide

/-- C6 amended: for a VERIFIED account, a wrong-password login and a
login with a non-existent email produce identical responses (400,
"Invalid email or password"); for unverified accounts the responses
differ, as `c6_counterexample` shows. -/
theorem c6_login_failure_shape (db : DB) (e1 p1 e2 p2 : String) (n1 n2 : Nat) (u : User)
    (h1 : db.users.find? (fun v => v.email ==
      (if truthy e1 then jsToLowerCase (jsTrim e1) else e1)) = none)
    (h2 : db.users.find? (fun v => v.email ==
      (if truthy e2 then jsToLowerCase (jsTrim e2) else e2)) = some u)
    (hver : u.isVerified = true)
    (hpw : bcryptCompare p2 u.password = false) :
    loginHandler db e1 p1 n1 = loginHandler db e2 p2 n2 ∧
    loginHandler db e1 p1 n1 = { status := 400, message := "Invalid email or password" } := by
  have ha : loginHandler db e1 p1 n1 =
      { status := 400, message := "Invalid email or password" } := by
    simp [loginHandler, h1]
  have hb : loginHandler db e2 p2 n2 =
      { status := 400, message := "Invalid email or password" } := by
    simp [loginHandler, h2, hver, hpw]
  exact ⟨ha.trans hb.symm, ha⟩

/-- C6 witness: the amended theorem at a concrete verified account. -/
theorem c6_witness :
    (dbLogin.users.find? (fun v => v.email ==
      (if truthy "nobody@x.com" then jsToLowerCase (jsTrim "nobody@x.com") else "nobody@x.com")) = none) ∧
    (dbLogin.users.find? (fun v => v.email ==
      (if truthy "v@x.com" then jsToLowerCase (jsTrim "v@x.com") else "v@x.com")) = some uLoginV) ∧
    uLoginV.isVerified = true ∧
    bcryptCompare "wrong" uLoginV.password = false ∧
    loginHandler dbLogin "nobody@x.com" "anything" 0 = loginHandler dbLogin "v@x.com" "wrong" 7 :=
  ⟨by decide, by decide, by decide, by decide,
   (c6_login_failure_shape dbLogin "nobody@x.com" "anything" "v@x.com" "wrong" 0 7 uLoginV
     (by decide) (by decide) (by decide) (by decide)).1⟩

/-- C5 counterexample: a successful registration response carries the
generated OTP in its body (the `otp` field is set), contrary to the claim
that the response never contains the code. -/
theorem c5_counterexample :
    (registerHandler dbEmpty reqA 0 0).fst.status = 201 ∧
    (registerHandler dbEmpty reqA 0 0).fst.otp ≠ none := by
  decide

/-- C5 amended: every successful registration response contains exactly
the generated OTP value in its body — the development-mode leak the spec's
design notes describe. -/
theorem c5_response_contains_otp (db : DB) (req : RegisterReq) (r : ℚ) (now : Nat)
    (h : (registerHandler db req r now).fst.status = 201) :
    (registerHandler db req r now).fst.otp = some (genOtpStr r) := by
  rw [(register_success_inv db req r now h).2]

/-- C5 witness: the amended theorem at a concrete registration. -/
theorem c5_witness :
    (registerHandler dbEmpty reqA 0 0).fst.status = 201 ∧
    (registerHandler dbEmpty reqA 0 0).fst.otp = some (genOtpStr 0) :=
  ⟨by decide, c5_response_contains_otp dbEmpty reqA 0 0 (by decide)⟩

/-- C7: a verify-otp request made after the stored OTP's expiry timestamp
has passed is rejected — status 400, no token, store unchanged — even when
the presented code is exactly the stored code. -/
theorem c7_expired_otp_rejected (db : DB) (email : String) (now : Nat) (u : User)
    (code : String) (te : Nat)
    (hfind : db.users.find? (fun v => v.email ==
      (if truthy email then jsToLowerCase (jsTrim email) else email)) = some u)
    (hotp : u.otp = some code) (hexp : u.otpExpires = some te) (hlt : te < now) :
    (verifyOtpHandler db email code now).fst.status = 400 ∧
    (verifyOtpHandler db email code now).fst.token = none ∧
    (verifyOtpHandler db email code now).snd = db := by
  by_cases hcond : (!truthy (if truthy email then jsToLowerCase (jsTrim email) else email) ||
      !truthy code) = true
  · refine ⟨?_, ?_, ?_⟩ <;> · simp only [verifyOtpHandler]
                              rw [if_pos hcond]
  · rw [Bool.not_eq_true, Bool.or_eq_false_iff] at hcond
    obtain ⟨hce, hco⟩ := hcond
    simp only [Bool.not_eq_false'] at hce hco
    by_cases hver : u.isVerified = true
    · refine ⟨?_, ?_, ?_⟩ <;> simp [verifyOtpHandler, hce, hco, hfind, hver]
    · rw [Bool.not_eq_true] at hver
      refine ⟨?_, ?_, ?_⟩ <;>
        simp [verifyOtpHandler, hce, hco, hfind, hver, hotp, hexp, hlt]

/-- C7 witness: the expired-OTP rejection at a concrete store, presenting
exactly the stored code after its expiry. -/
theorem c7_witness :
    (dbVer.users.find? (fun v => v.email ==
       (if truthy "a@x.com" then jsToLowerCase (jsTrim "a@x.com") else "a@x.com")) = some uVer) ∧
    uVer.otp = some "111111" ∧ uVer.otpExpires = some 600000 ∧ 600000 < 700000 ∧
    ((verifyOtpHandler dbVer "a@x.com" "111111" 700000).fst.status = 400 ∧
     (verifyOtpHandler dbVer "a@x.com" "111111" 700000).fst.token = none ∧
     (verifyOtpHandler dbVer "a@x.com" "111111" 700000).snd = dbVer) :=
  ⟨by decide, by decide, by decide, by decide,
   c7_expired_otp_rejected dbVer "a@x.com" 700000 uVer "111111" 600000
     (by decide) (by decide) (by decide) (by decide)⟩

/-- C8 counterexample: after a successful verification, presenting the same
code again fails with 400 "User already verified" — an AlreadyVerified
error, not one of the NoChallenge/InvalidOrExpiredOtp-class messages the
claim names. -/
theorem c8_counterexample :
    (verifyOtpHandler dbVer "a@x.com" "111111" 10).fst.status = 200 ∧
    (verifyOtpHandler (verifyOtpHandler dbVer "a@x.com" "111111" 10).snd "a@x.com" "111111" 20).fst.status = 400 ∧
    (verifyOtpHandler (verifyOtpHandler dbVer "a@x.com" "111111" 10).snd "a@x.com" "111111" 20).fst.message =
      "User already verified" ∧
    ("User already verified" : String) ≠ "No OTP set for user" ∧
    ("User already verified" : String) ≠ "Invalid OTP" ∧
    ("User already verified" : String) ≠ "OTP expired" := by
  decide

/-- C8 amended: presenting the same OTP twice yields at most one success —
if the first verify-otp call succeeds, the second deterministically fails
with 400 "User already verified" (the already-verified check fires before
any OTP-slot check), never a second success. -/
theorem c8_second_submission_fails (db : DB) (email otp : String) (now now' : Nat)
    (h : (verifyOtpHandler db email otp now).fst.status = 200) :
    (verifyOtpHandler (verifyOtpHandler db email otp now).snd email otp now').fst =
      { status := 400, message := "User already verified" } := by
  obtain ⟨u, hcond, hfind, hver, hotp, hresp, hsnd⟩ := verify_success_inv db email otp now h
  rw [hsnd]
  have hfind2 : (db.users.map (fun v => if v.id = u.id then
      { u with isVerified := true, otp := none, otpExpires := none } else v)).find?
      (fun v => v.email == (if truthy email then jsToLowerCase (jsTrim email) else email)) =
      some { u with isVerified := true, otp := none, otpExpires := none } := by
    have hp0 := List.find?_some hfind
    exact find?_map_if db.users
      (fun v => v.email == (if truthy email then jsToLowerCase (jsTrim email) else email))
      u { u with isVerified := true, otp := none, otpExpires := none } hfind hp0
  simp [verifyOtpHandler, hcond, hfind2, -List.find?_map]

/-- C8 witness: the double-submission pair at a concrete store. -/
theorem c8_witness :
    (verifyOtpHandler dbVer "a@x.com" "111111" 10).fst.status = 200 ∧
    (verifyOtpHandler (verifyOtpHandler dbVer "a@x.com" "111111" 10).snd "a@x.com" "111111" 20).fst =
      { status := 400, message := "User already verified" } :=
  ⟨by decide, c8_second_submission_fails dbVer "a@x.com" "111111" 10 20 (by decide)⟩

/-- C9: for every Math.random draw r with 0 ≤ r < 1 the generated code
floor(100000 + r·900000) lies in 100000..999999 (always six digits), and a
successful registration stores the new user with expiry exactly the
issuance time plus 10 minutes. -/
theorem c9_otp_range_and_expiry (r : ℚ) (h0 : 0 ≤ r) (h1 : r < 1) :
    (100000 ≤ genOtpNum r ∧ genOtpNum r ≤ 999999) ∧
    ∀ (db : DB) (req : RegisterReq) (now : Nat),
      (registerHandler db req r now).fst.status = 201 →
      (registerHandler db req r now).snd.users = db.users ++ [savedUser db req r now] := by
  constructor
  · constructor
    · rw [genOtpNum, Int.le_floor]
      push_cast
      nlinarith
    · have hlt : genOtpNum r < 1000000 := by
        rw [genOtpNum, Int.floor_lt]
        push_cast
        nlinarith
      omega
  · intro db req now h
    rw [(register_success_inv db req r now h).2]

/-- C9 witness: the range bounds and the stored-expiry equation at the
draw r = 0 and a concrete registration. -/
theorem c9_witness :
    ((0:ℚ) ≤ 0 ∧ (0:ℚ) < 1) ∧
    (100000 ≤ genOtpNum 0 ∧ genOtpNum 0 ≤ 999999) ∧
    ((registerHandler dbEmpty reqA 0 0).fst.status = 201 ∧
     (registerHandler dbEmpty reqA 0 0).snd.users = dbEmpty.users ++ [savedUser dbEmpty reqA 0 0]) :=
  ⟨⟨le_refl 0, by decide⟩, (c9_otp_range_and_expiry 0 (le_refl 0) (by decide)).1,
   by decide, (c9_otp_range_and_expiry 0 (le_refl 0) (by decide)).2 dbEmpty reqA 0 (by decide)⟩

/-- C10: a POST /assets request authenticated by a bearer token creates an
asset whose userId is the account id decoded from the token; any userId
supplied in the request body is ignored — the handler's result does not
depend on it. -/
theorem c10_asset_owner_from_token (db : DB) (tok : Token) (now : Nat) (body : AssetBody) (u : User)
    (hexp : ¬ tok.exp < now)
    (huser : findById db tok.userId = some u) :
    ((postAssetHandler db (some tok) now body).fst.asset).map Asset.userId = some tok.userId ∧
    (postAssetHandler db (some tok) now body).snd.assets =
      db.assets ++ [{ id := db.nextAssetId, userId := tok.userId, type := body.type,
                      name := body.name, quantity := body.quantity, price := body.price }] ∧
    ∀ x : Option Nat,
      postAssetHandler db (some tok) now { body with userId := x } =
        postAssetHandler db (some tok) now body := by
  have hid : u.id = tok.userId := by
    have hfs := @List.find?_some User (fun v => v.id == tok.userId) u db.users huser
    exact eq_of_beq hfs
  refine ⟨?_, ?_, ?_⟩
  · simp [postAssetHandler, authenticateToken, hexp, huser, hid]
  · simp [postAssetHandler, authenticateToken, hexp, huser, hid]
  · intro x
    simp [postAssetHandler, authenticateToken, hexp, huser]

/-- C10 witness: a concrete authenticated POST whose body claims a foreign
userId 999; the created asset is owned by the token's account 1. -/
theorem c10_witness :
    ¬ ((jwtSign 1 0).exp < 0) ∧
    findById dbLogin (jwtSign 1 0).userId = some uLoginV ∧
    ((postAssetHandler dbLogin (some (jwtSign 1 0)) 0
        { userId := some 999, type := "stock", name := "AAPL", quantity := 1, price := 2 }).fst.asset).map
      Asset.userId = some (jwtSign 1 0).userId :=
  ⟨by decide, by decide,
   (c10_asset_owner_from_token dbLogin (jwtSign 1 0) 0
     { userId := some 999, type := "stock", name := "AAPL", quantity := 1, price := 2 } uLoginV
     (by decide) (by decide)).1⟩


end Portify
